import Mathlib

/-!
Verification of the haproxy-srv configuration daemon (src/start.js).

The development shallowly embeds the discovery, resolution and
change-reconciliation pipeline of start.js:

- SrvTarget and Endpoint model the records returned by dns.resolveSrv and
  produced by resolveIP (start.js lines 100-118).
- DnsEnv packages the external collaborators (the literal-address test from
  the ip module, dns.resolve, dns.resolveSrv, and String.prototype.localeCompare)
  as explicit parameters, so that each theorem quantifies over the collaborator
  behaviour the code reacts to.
- The cache dnsCache.srv (a JS Map from DNS name to either an endpoint array
  or undefined) is an association list of String by Option (List Endpoint);
  mapGet and mapSet embed Map.prototype.get and Map.prototype.set, keeping
  insertion order as a JS Map does.
- resolveSRV, generateContext, the productive dns-srv helper, and
  regenerateConfiguration follow start.js lines 126-247.
-/

instance {ε α : Type} [DecidableEq ε] [DecidableEq α] : DecidableEq (Except ε α) := fun x y => by
  cases x <;> cases y
  case error.error e1 e2 => exact decidable_of_iff (e1 = e2) (by simp)
  case error.ok e a => exact isFalse (fun h => Except.noConfusion h)
  case ok.error a e => exact isFalse (fun h => Except.noConfusion h)
  case ok.ok a b => exact decidable_of_iff (a = b) (by simp)

/-- One record of a dns.resolveSrv answer: name, port, priority, weight
(start.js line 92 shows the shape). -/
structure SrvTarget where
  name : String
  port : Nat
  priority : Nat
  weight : Nat
deriving DecidableEq, Repr

/-- An SrvTarget after resolveIP has attached the ip field (start.js line 96).
The ip field is an Option because for a non-literal name the code stores
address[0], and a JS array index past the end is undefined. -/
structure Endpoint where
  name : String
  ip : Option String
  port : Nat
  priority : Nat
  weight : Nat
deriving DecidableEq, Repr

/-- The external collaborators of the resolver, as used by start.js:
isIPLiteral embeds the test ip.isV4Format or ip.isV6Format (line 102),
resolveAddress embeds dns.resolve (line 107), resolveSrvRaw embeds
dns.resolveSrv (line 128), and localeCmp embeds String.prototype.localeCompare
(line 136), with a negative, zero or positive comparator result rendered as an
Ordering. -/
structure DnsEnv where
  isIPLiteral : String → Bool
  resolveAddress : String → Except String (List String)
  resolveSrvRaw : String → Except String (List SrvTarget)
  localeCmp : String → String → Ordering

/-- Embedding of resolveIP (start.js lines 100-118): a literal address is used
directly as the ip field with no lookup; otherwise dns.resolve is consulted and
the first returned address is stored, and a lookup error rejects the promise. -/
def resolveIP (env : DnsEnv) (entry : SrvTarget) : Except String Endpoint :=
  if env.isIPLiteral entry.name then
    Except.ok ⟨entry.name, some entry.name, entry.port, entry.priority, entry.weight⟩
  else
    match env.resolveAddress entry.name with
    | Except.error err => Except.error err
    | Except.ok addrs => Except.ok ⟨entry.name, addrs.head?, entry.port, entry.priority, entry.weight⟩

/-- Embedding of Promise.all over the mapped resolveIP promises
(start.js line 137): the join resolves with the list of all values when every
promise resolves, and rejects as soon as any promise rejects. -/
def collectAll : List (Except String Endpoint) → Except String (List Endpoint)
  | [] => Except.ok []
  | Except.error e :: _ => Except.error e
  | Except.ok v :: rest =>
    match collectAll rest with
    | Except.error e => Except.error e
    | Except.ok vs => Except.ok (v :: vs)

/-- The comparator passed to Array.prototype.sort on start.js line 136:
a is kept no later than b exactly when a.name.localeCompare(b.name) is not
positive. -/
abbrev targetLE (cmp : String → String → Ordering) (a b : SrvTarget) : Prop :=
  cmp a.name b.name ≠ Ordering.gt

/-- Embedding of result.sort on start.js line 136. Array.prototype.sort is a
stable sort driven by the comparator; a stable insertion sort realises exactly
that contract. -/
def sortTargets (cmp : String → String → Ordering) (targets : List SrvTarget) : List SrvTarget :=
  List.insertionSort (targetLE cmp) targets

/-- The success branch of the dns.resolveSrv callback (start.js lines 134-142):
a non-empty answer is sorted by name and every target is pushed through
resolveIP under a Promise.all join; an empty answer resolves to the empty
list without any address lookups. -/
def srvSuccess (env : DnsEnv) (result : List SrvTarget) : Except String (List Endpoint) :=
  if result.length > 0 then
    collectAll ((sortTargets env.localeCmp result).map (resolveIP env))
  else
    Except.ok []

/-- Embedding of resolveSRV (start.js lines 126-144): a dns.resolveSrv error
rejects the promise, otherwise the success branch runs. -/
def resolveSRV (env : DnsEnv) (dnsName : String) : Except String (List Endpoint) :=
  match env.resolveSrvRaw dnsName with
  | Except.error e => Except.error e
  | Except.ok result => srvSuccess env result

/-- The discovery cache dnsCache.srv, a JS Map whose values are either an
endpoint array or undefined (a key set with services.set(key) and no second
argument). Insertion order is kept, as a JS Map does. -/
abbrev Cache := List (String × Option (List Endpoint))

/-- Embedding of Map.prototype.get: the value of the first entry with the
given key, and undefined (none) when the key is absent. -/
def mapGet (m : Cache) (k : String) : Option (List Endpoint) :=
  match m.find? (fun kv => kv.1 == k) with
  | none => none
  | some kv => kv.2

/-- Embedding of Map.prototype.set: overwrite the value when the key is
present, otherwise append the new entry at the end (insertion order). -/
def mapSet (m : Cache) (k : String) (v : Option (List Endpoint)) : Cache :=
  if m.any (fun kv => kv.1 == k) then
    m.map (fun kv => if kv.1 == k then (k, v) else kv)
  else
    m ++ [(k, v)]

/-- The keys of the cache, in insertion order. -/
def mapKeys (m : Cache) : List String :=
  m.map Prod.fst

/-- How RSVP.hashSettled records one settled promise in generateContext
(start.js lines 161-168): a fulfilled resolution stores its value, any other
outcome stores undefined (services.set(key) with no value). -/
def settledValue : Except String (List Endpoint) → Option (List Endpoint)
  | Except.ok eps => some eps
  | Except.error _ => none

/-- The value generateContext writes back for one key: the settled outcome of
that key's own resolveSRV promise. -/
def resolveOutcome (env : DnsEnv) (k : String) : Option (List Endpoint) :=
  settledValue (resolveSRV env k)

/-- Embedding of generateContext (start.js lines 153-172): for every key of
the cache a resolveSRV promise is started, the promises are joined with
RSVP.hashSettled, and each key is then written back with its own settled
outcome. The handlebars context returned by the JS function is the empty
object; the productive helper reads the cache, so the cache update is the
meaningful result and is what this embedding returns. -/
def generateContext (env : DnsEnv) (cache : Cache) : Cache :=
  List.foldl (fun acc k => mapSet acc k (resolveOutcome env k)) cache (mapKeys cache)

/-- Embedding of the productive dns-srv helper (start.js lines 196-204).
JS truthiness decides the branch: map.get of an unresolved key is undefined
and the bound block is skipped (the helper returns undefined, which renders as
no output); an array value, even the empty array, is truthy, so options.fn is
invoked with the stored endpoint list as context. -/
def gatherDataHelper (cache : Cache) (fn : List Endpoint → String) (dnsName : String) : String :=
  match mapGet cache dnsName with
  | none => ""
  | some eps => fn eps

/-- One piece of the compiled template: literal text, or a dns-srv block whose
body fn is the compiled options.fn of the handlebars block. -/
inductive TemplateItem where
  | text (s : String)
  | dnsSrvBlock (key : String) (fn : List Endpoint → String)

/-- Rendering of one template piece against the cache: literal text renders as
itself, a dns-srv block renders through the productive helper. -/
def renderItem (cache : Cache) : TemplateItem → String
  | TemplateItem.text s => s
  | TemplateItem.dnsSrvBlock k fn => gatherDataHelper cache fn k

/-- Rendering of the whole compiled template against the cache
(template(context) on start.js line 219; the helper reads the cache). -/
def render (tmpl : List TemplateItem) (cache : Cache) : String :=
  String.join (tmpl.map (renderItem cache))

/-- Splitting a character list at newline characters, accumulating the
current line in reverse. -/
def splitLinesAux : List Char → List Char → List String
  | [], acc => [String.mk acc.reverse]
  | c :: cs, acc =>
    if c = '\n' then String.mk acc.reverse :: splitLinesAux cs []
    else splitLinesAux cs (c :: acc)

/-- The line tokenisation used by the diff collaborator: split the text at
newline characters. -/
def splitLines (s : String) : List String :=
  splitLinesAux s.data []

/-- Removal of leading and trailing whitespace from one line. -/
def trimLine (s : String) : String :=
  String.mk (((s.data.dropWhile Char.isWhitespace).reverse.dropWhile Char.isWhitespace).reverse)

/-- The line tokens of a text the way the diff collaborator produces them:
each token is a line with its terminating newline attached, so a text ending
in a newline has no extra empty token. Splitting at newlines and dropping a
final empty chunk yields the same tokens up to the trailing newline character,
which the subsequent trim removes anyway. -/
def lineChunks (s : String) : List String :=
  let raw := splitLines s
  if raw.getLast? = some "" then raw.dropLast else raw

/-- The trimmed line sequence of a configuration text. -/
def trimmedLines (s : String) : List String :=
  (lineChunks s).map trimLine

/-- Embedding of the change test on start.js lines 220-221 at the interface of
the jsdiff collaborator: diffTrimmedLines tokenises both texts into lines,
compares them trimmed, and the resulting diff is a single hunk that is neither
added nor removed exactly when the two trimmed line sequences coincide; the
code takes the change branch exactly otherwise. -/
def configChanged (originalConfig newConfig : String) : Bool :=
  decide (trimmedLines originalConfig ≠ trimmedLines newConfig)

/-- The three ways the promise built on start.js lines 216-245 can behave:
resolve, reject, or never settle (the executor returns without calling either
callback). -/
inductive PromiseOutcome (α : Type) where
  | resolved (value : α)
  | rejected (err : String)
  | pending
deriving DecidableEq, Repr

/-- The observable effects of one run of regenerateConfiguration: the content
written to the configuration file (none when no write happened), whether
haproxy.reload was called, and how the returned promise behaved. -/
structure CycleResult where
  written : Option String
  reloadAttempted : Bool
  outcome : PromiseOutcome Unit
deriving DecidableEq, Repr

/-- Embedding of regenerateConfiguration (start.js lines 214-247).
existingFile is the configuration file state (none when fs.existsSync is
false, in which case the original text is the empty string), running is the
haproxyRunning flag, and reloadErr is the error the haproxy.reload callback
would report (none for a successful reload). On a detected change the new
text is written; then, if haproxy runs, reload is attempted and its error
rejects the promise; without a change the executor only logs at debug level
and returns, settling nothing. -/
def regenerateConfiguration (tmpl : List TemplateItem) (env : DnsEnv) (cache : Cache)
    (existingFile : Option String) (running : Bool) (reloadErr : Option String) : CycleResult :=
  let cache2 := generateContext env cache
  let originalConfig := Option.getD existingFile ""
  let newConfig := render tmpl cache2
  if configChanged originalConfig newConfig then
    if running then
      match reloadErr with
      | some e => ⟨some newConfig, true, PromiseOutcome.rejected e⟩
      | none => ⟨some newConfig, true, PromiseOutcome.resolved ()⟩
    else
      ⟨some newConfig, false, PromiseOutcome.resolved ()⟩
  else
    ⟨none, false, PromiseOutcome.pending⟩

/-- The exit status passed to process.exit in onFailure (start.js line 287). -/
def onFailureExitCode : Int := -1

/-- What the scheduler does after a cycle: keep running, or terminate the
whole process. -/
inductive SchedulerAction where
  | keepRunning
  | exitProcess (code : Int)
deriving DecidableEq, Repr

/-- Embedding of the catch handler wired in scheduleRefresh (start.js lines
255-267): a rejected cycle reaches onFailure, which calls process.exit(-1); a
resolved cycle only logs, and a pending cycle never invokes either handler. -/
def schedulerReaction : PromiseOutcome Unit → SchedulerAction
  | PromiseOutcome.rejected _ => SchedulerAction.exitProcess onFailureExitCode
  | _ => SchedulerAction.keepRunning

/-- A then-callback of a promise chain runs exactly when its predecessor
resolved. -/
def stepRan : PromiseOutcome Unit → Bool
  | PromiseOutcome.resolved _ => true
  | _ => false

/-- Outcome of p.then(next): the next outcome after a resolution, the same
rejection after a rejection, and still pending when p never settles. -/
def andThen (p : PromiseOutcome Unit) (next : PromiseOutcome Unit) : PromiseOutcome Unit :=
  match p with
  | PromiseOutcome.resolved _ => next
  | PromiseOutcome.rejected e => PromiseOutcome.rejected e
  | PromiseOutcome.pending => PromiseOutcome.pending

/-- Which of the startup steps chained after the first regenerateConfiguration
ran (start.js lines 290-298): verifyConfiguration, startHAProxy,
scheduleRefresh. -/
structure StartupSteps where
  verifyConfigurationRan : Bool
  startHAProxyRan : Bool
  scheduleRefreshRan : Bool
deriving DecidableEq, Repr

/-- Embedding of the main sequence after checkTemplate (start.js lines
290-298): each later step runs only when the chain up to it resolved.
firstRegen is the outcome of the startup regenerateConfiguration call, and
verifyOutcome and startOutcome are the outcomes verifyConfiguration and
startHAProxy would have if reached. -/
def mainSequenceSteps (firstRegen verifyOutcome startOutcome : PromiseOutcome Unit) : StartupSteps :=
  let afterVerify := andThen firstRegen verifyOutcome
  let afterStart := andThen afterVerify startOutcome
  ⟨stepRan firstRegen, stepRan afterVerify, stepRan afterStart⟩


/-- Setting a key that the head entry does not carry distributes over cons. -/
theorem mapSet_cons_ne (hd : String × Option (List Endpoint)) (tl : Cache) (k : String)
    (v : Option (List Endpoint)) (h : (hd.1 == k) = false) :
    mapSet (hd :: tl) k v = hd :: mapSet tl k v := by
  simp only [mapSet, List.any_cons, h, Bool.false_or, List.map_cons, List.cons_append]
  split <;> simp [h]

/-- Looking up a key skips a head entry carrying a different key. -/
theorem mapGet_cons_ne (hd : String × Option (List Endpoint)) (tl : Cache) (k : String)
    (h : (hd.1 == k) = false) : mapGet (hd :: tl) k = mapGet tl k := by
  simp [mapGet, List.find?_cons_of_neg, h]

/-- Map.get after Map.set of the same key returns the value just set. -/
theorem mapGet_mapSet_self (m : Cache) (k : String) (v : Option (List Endpoint)) :
    mapGet (mapSet m k v) k = v := by
  induction m with
  | nil => simp [mapSet, mapGet]
  | cons hd tl ih =>
    by_cases h : (hd.1 == k) = true
    · have hany : ((hd :: tl).any fun kv => kv.1 == k) = true := by simp [List.any_cons, h]
      simp only [mapSet, hany, if_true, List.map_cons, h, if_pos]
      simp [mapGet]
    · have h' : (hd.1 == k) = false := by simpa using h
      rw [mapSet_cons_ne hd tl k v h', mapGet_cons_ne hd _ k h', ih]

/-- Updating entries of other keys in place does not change the lookup of a
different key. -/
theorem mapGet_mapUpdate_ne (m : Cache) (k k2 : String) (v : Option (List Endpoint))
    (h : k2 ≠ k) :
    mapGet (m.map (fun kv => if kv.1 == k then (k, v) else kv)) k2 = mapGet m k2 := by
  induction m with
  | nil => rfl
  | cons hd tl ih =>
    by_cases hh : (hd.1 == k) = true
    · have hk : hd.1 = k := by simpa using hh
      have h1 : ((k : String) == k2) = false := by simp [Ne.symm h]
      have h2 : (hd.1 == k2) = false := by simp [hk, Ne.symm h]
      simp only [List.map_cons, hh, if_true, cond_true]
      rw [mapGet_cons_ne (k, v) _ k2 h1, mapGet_cons_ne hd tl k2 h2]
      exact ih
    · have h3 : (hd.1 == k) = false := by simpa using hh
      simp only [List.map_cons, h3, Bool.false_eq_true, if_false]
      by_cases h4 : (hd.1 == k2) = true
      · simp [mapGet, List.find?_cons_of_pos, h4]
      · have h5 : (hd.1 == k2) = false := by simpa using h4
        rw [mapGet_cons_ne hd _ k2 h5, mapGet_cons_ne hd tl k2 h5]
        exact ih

/-- Appending a fresh entry for another key does not change the lookup of a
different key. -/
theorem mapGet_append_ne (m : Cache) (k k2 : String) (v : Option (List Endpoint))
    (h : k2 ≠ k) : mapGet (m ++ [(k, v)]) k2 = mapGet m k2 := by
  have h1 : ((k : String) == k2) = false := by simp [Ne.symm h]
  unfold mapGet
  rw [List.find?_append]
  cases hf : List.find? (fun kv => kv.1 == k2) m with
  | some kv => simp [hf]
  | none => simp [hf, List.find?, h1]

/-- Map.get of a different key is unchanged by Map.set. -/
theorem mapGet_mapSet_ne (m : Cache) (k k2 : String) (v : Option (List Endpoint))
    (h : k2 ≠ k) : mapGet (mapSet m k v) k2 = mapGet m k2 := by
  by_cases hany : (m.any fun kv => kv.1 == k) = true
  · simp only [mapSet, hany, if_true]
    exact mapGet_mapUpdate_ne m k k2 v h
  · simp only [mapSet, hany, Bool.false_eq_true, if_false]
    exact mapGet_append_ne m k k2 v h

/-- Folding per-key Map.set updates over keys not containing k leaves the
lookup of k unchanged. -/
theorem mapGet_foldl_not_mem (out : String → Option (List Endpoint)) (ks : List String)
    (acc : Cache) (k : String) (h : k ∉ ks) :
    mapGet (List.foldl (fun acc k2 => mapSet acc k2 (out k2)) acc ks) k = mapGet acc k := by
  induction ks generalizing acc with
  | nil => rfl
  | cons k0 t ih =>
    simp only [List.foldl_cons]
    have hk0 : k ≠ k0 := fun he => h (he ▸ List.mem_cons_self k0 t)
    rw [ih _ (fun ht => h (List.mem_cons_of_mem k0 ht)), mapGet_mapSet_ne _ _ _ _ hk0]

/-- After folding per-key Map.set updates over a key list containing k, the
lookup of k returns exactly the update computed for k. -/
theorem mapGet_foldl_mem (out : String → Option (List Endpoint)) (ks : List String)
    (acc : Cache) (k : String) (h : k ∈ ks) :
    mapGet (List.foldl (fun acc k2 => mapSet acc k2 (out k2)) acc ks) k = out k := by
  induction ks generalizing acc with
  | nil => cases h
  | cons k0 t ih =>
    simp only [List.foldl_cons]
    by_cases hm : k ∈ t
    · exact ih _ hm
    · have hk : k = k0 := by
        cases h with
        | head => rfl
        | tail _ ht => exact absurd ht hm
      subst hk
      rw [mapGet_foldl_not_mem out t _ k hm, mapGet_mapSet_self]

/-- A key is among the cache keys exactly when some entry carries it. -/
theorem mem_mapKeys_iff_any (m : Cache) (k : String) :
    k ∈ mapKeys m ↔ (m.any fun kv => kv.1 == k) = true := by
  constructor
  · intro h
    rcases List.mem_map.mp h with ⟨kv, hkv, he⟩
    exact List.any_eq_true.mpr ⟨kv, hkv, by simp [he]⟩
  · intro h
    rcases List.any_eq_true.mp h with ⟨kv, hkv, hbe⟩
    exact List.mem_map.mpr ⟨kv, hkv, by simpa using hbe⟩

/-- Map.set of an already present key does not change the key list. -/
theorem mapKeys_mapSet (m : Cache) (k : String) (v : Option (List Endpoint))
    (h : k ∈ mapKeys m) : mapKeys (mapSet m k v) = mapKeys m := by
  have hany := (mem_mapKeys_iff_any m k).mp h
  simp only [mapSet, hany, if_true, mapKeys, List.map_map]
  apply List.map_congr_left
  intro a ha
  by_cases hh : (a.1 == k) = true
  · have h2 : a.1 = k := by simpa using hh
    simp [Function.comp, hh, h2]
  · have h3 : (a.1 == k) = false := by simpa using hh
    simp [Function.comp, h3]

/-- Folding per-key Map.set updates over keys that are all present leaves the
key list unchanged. -/
theorem mapKeys_foldl (out : String → Option (List Endpoint)) (ks : List String)
    (acc : Cache) (h : ∀ k, k ∈ ks → k ∈ mapKeys acc) :
    mapKeys (List.foldl (fun acc k2 => mapSet acc k2 (out k2)) acc ks) = mapKeys acc := by
  induction ks generalizing acc with
  | nil => rfl
  | cons k0 t ih =>
    simp only [List.foldl_cons]
    have h0 : k0 ∈ mapKeys acc := h k0 (List.mem_cons_self k0 t)
    have hkeys := mapKeys_mapSet acc k0 (out k0) h0
    rw [ih _ (fun k hk => by rw [hkeys]; exact h k (List.mem_cons_of_mem k0 hk)), hkeys]

/-- A resolution cycle never adds or removes cache keys. -/
theorem generateContext_keys (env : DnsEnv) (cache : Cache) :
    mapKeys (generateContext env cache) = mapKeys cache :=
  mapKeys_foldl _ _ _ (fun _ hk => hk)

/-- After a resolution cycle, every key of the cache holds exactly its own
settled outcome. -/
theorem generateContext_get (env : DnsEnv) (cache : Cache) (k : String)
    (h : k ∈ mapKeys cache) :
    mapGet (generateContext env cache) k = resolveOutcome env k :=
  mapGet_foldl_mem _ _ _ _ h

/-- Two sorted permutations of each other coincide, provided the order is
antisymmetric on the members involved. -/
theorem sorted_perm_eq {α : Type} (r : α → α → Prop) (l1 l2 : List α) (p : l1.Perm l2)
    (s1 : l1.Pairwise r) (s2 : l2.Pairwise r)
    (anti : ∀ a, a ∈ l1 → ∀ b, b ∈ l1 → r a b → r b a → a = b) : l1 = l2 := by
  induction l1 generalizing l2 with
  | nil => exact p.nil_eq
  | cons a t ih =>
    cases l2 with
    | nil => exact absurd p.eq_nil (by simp)
    | cons b t2 =>
      have hab : a = b := by
        by_cases h : a = b
        · exact h
        · have hbmem : b ∈ a :: t := p.symm.subset (List.mem_cons_self b t2)
          have hamem : a ∈ b :: t2 := p.subset (List.mem_cons_self a t)
          have hb_t : b ∈ t := by
            rcases List.mem_cons.mp hbmem with he | hm
            · exact absurd he.symm h
            · exact hm
          have ha_t2 : a ∈ t2 := by
            rcases List.mem_cons.mp hamem with he | hm
            · exact absurd he h
            · exact hm
          have rab : r a b := (List.pairwise_cons.mp s1).1 b hb_t
          have rba : r b a := (List.pairwise_cons.mp s2).1 a ha_t2
          exact anti a (List.mem_cons_self a t) b hbmem rab rba
      subst hab
      have p2 : t.Perm t2 := p.cons_inv
      have ht := ih t2 p2 (List.pairwise_cons.mp s1).2 (List.pairwise_cons.mp s2).2
        (fun x hx y hy => anti x (List.mem_cons_of_mem a hx) y (List.mem_cons_of_mem a hy))
      rw [ht]

/-- Promise.all rejects whenever one of the joined promises rejects. -/
theorem collectAll_error_of_mem (xs : List (Except String Endpoint)) (e : String)
    (hx : Except.error e ∈ xs) : ∃ e2, collectAll xs = Except.error e2 := by
  induction xs with
  | nil => cases hx
  | cons y ys ih =>
    cases y with
    | error e3 => exact ⟨e3, rfl⟩
    | ok v =>
      rcases List.mem_cons.mp hx with he | hm
      · exact Except.noConfusion he
      · rcases ih hm with ⟨e2, h2⟩
        exact ⟨e2, by simp [collectAll, h2]⟩

/-- A cache for the C1 counterexample: the discovery key resolved to an empty
endpoint list. -/
def c1Cache : Cache := [("web.service", some [])]

/-- C1 counterexample: with a cached empty endpoint list the productive
dns-srv construct DOES evaluate its bound block (an empty JS array is truthy),
so a block containing literal text yields output, contradicting the claim that
an empty list yields no output. -/
theorem c1_counterexample :
    mapGet c1Cache "web.service" = some [] ∧
    render [TemplateItem.dnsSrvBlock "web.service" (fun _ => "backend line")] c1Cache
      = "backend line" ∧
    render [TemplateItem.dnsSrvBlock "web.service" (fun _ => "backend line")] c1Cache ≠ "" := by
  refine ⟨by decide, by decide, by decide⟩

/-- C1 (amended): for every discovery key whose cached value is Unresolved
(undefined), rendering the template in productive mode yields no output for
that key's lookup construct and the bound block is not evaluated; a cached
empty endpoint list, in contrast, is truthy, so its block is evaluated with
the empty list as context. -/
theorem c1_unresolved_no_output (cache : Cache) (dnsName : String)
    (h : mapGet cache dnsName = none) :
    (∀ fn, gatherDataHelper cache fn dnsName = "") ∧
    (∀ fn, render [TemplateItem.dnsSrvBlock dnsName fn] cache = "") := by
  constructor
  · intro fn
    simp [gatherDataHelper, h]
  · intro fn
    simp [render, renderItem, gatherDataHelper, h, String.join]

/-- C1 witness: a concrete Unresolved key renders to the empty string. -/
theorem c1_witness :
    mapGet [("api.service", none)] "api.service" = none ∧
    gatherDataHelper [("api.service", none)] (fun _ => "backend line") "api.service" = "" ∧
    render [TemplateItem.dnsSrvBlock "api.service" (fun _ => "backend line")] [("api.service", none)] = "" :=
  ⟨by decide,
    (c1_unresolved_no_output [("api.service", none)] "api.service" (by decide)).1 _,
    (c1_unresolved_no_output [("api.service", none)] "api.service" (by decide)).2 _⟩

/-- C3: within one cycle, a failing service lookup for one key makes exactly
that key Unresolved, and every other key of the cache still receives its own
independent settled outcome; no failure aborts a sibling resolution. -/
theorem c3_failure_isolated (env : DnsEnv) (cache : Cache) (k0 : String) (e : String)
    (hk : k0 ∈ mapKeys cache) (hfail : resolveSRV env k0 = Except.error e) :
    mapGet (generateContext env cache) k0 = none ∧
    ∀ k, k ∈ mapKeys cache → k ≠ k0 →
      mapGet (generateContext env cache) k = resolveOutcome env k := by
  constructor
  · rw [generateContext_get env cache k0 hk]
    simp [resolveOutcome, settledValue, hfail]
  · intro k hkm _
    exact generateContext_get env cache k hkm

/-- A collaborator environment for the C3 witness: the lookup of bad.service
fails, the lookup of good.service succeeds. -/
def c3Env : DnsEnv :=
  ⟨fun _ => false,
    fun _ => Except.ok ["10.1.2.3"],
    fun k => if k = "bad.service" then Except.error "ENOTFOUND"
      else Except.ok [⟨"host-a", 8080, 0, 0⟩],
    fun s t => compare s.length t.length⟩

/-- The two-key cache for the C3 witness. -/
def c3Cache : Cache := [("bad.service", none), ("good.service", none)]

/-- C3 witness: concretely, the failing key ends up Unresolved while the
sibling key resolves to its own endpoint list. -/
theorem c3_witness :
    mapGet (generateContext c3Env c3Cache) "bad.service" = none ∧
    mapGet (generateContext c3Env c3Cache) "good.service" = resolveOutcome c3Env "good.service" ∧
    resolveOutcome c3Env "good.service" = some [⟨"host-a", some "10.1.2.3", 8080, 0, 0⟩] :=
  ⟨(c3_failure_isolated c3Env c3Cache "bad.service" "ENOTFOUND" (by decide) (by decide)).1,
    (c3_failure_isolated c3Env c3Cache "bad.service" "ENOTFOUND" (by decide) (by decide)).2
      "good.service" (by decide) (by decide),
    by decide⟩

/-- C4: when the service lookup of a key succeeds with a non-empty target list
but the address lookup of at least one target fails, the whole resolveSRV
promise rejects, its settled outcome is Unresolved, and after the cycle the
cache holds Unresolved for the key, never a partial endpoint list. -/
theorem c4_address_failure_fails_key (env : DnsEnv) (dnsName : String)
    (targets : List SrvTarget) (t : SrvTarget) (e : String)
    (hraw : env.resolveSrvRaw dnsName = Except.ok targets)
    (hmem : t ∈ targets) (hip : resolveIP env t = Except.error e) :
    (∃ e2, resolveSRV env dnsName = Except.error e2) ∧
    resolveOutcome env dnsName = none ∧
    ∀ cache : Cache, dnsName ∈ mapKeys cache →
      mapGet (generateContext env cache) dnsName = none := by
  have hlen : targets.length > 0 := List.length_pos.mpr (List.ne_nil_of_mem hmem)
  have hmem2 : t ∈ sortTargets env.localeCmp targets :=
    (List.perm_insertionSort (targetLE env.localeCmp) targets).mem_iff.mpr hmem
  have hxmem : Except.error e ∈ (sortTargets env.localeCmp targets).map (resolveIP env) := by
    have := List.mem_map_of_mem (resolveIP env) hmem2
    rwa [hip] at this
  rcases collectAll_error_of_mem _ e hxmem with ⟨e2, he2⟩
  have hsrv : resolveSRV env dnsName = Except.error e2 := by
    simp [resolveSRV, hraw, srvSuccess, hlen, he2]
  refine ⟨⟨e2, hsrv⟩, ?_, ?_⟩
  · simp [resolveOutcome, settledValue, hsrv]
  · intro cache hkc
    rw [generateContext_get env cache dnsName hkc]
    simp [resolveOutcome, settledValue, hsrv]

/-- A collaborator environment for the C4 witness: the service lookup returns
two targets and the address lookup fails for the second one. -/
def c4Env : DnsEnv :=
  ⟨fun _ => false,
    fun n => if n = "host-a" then Except.ok ["10.0.0.1"] else Except.error "EAI_AGAIN",
    fun _ => Except.ok [⟨"host-a", 80, 0, 0⟩, ⟨"host-b", 81, 0, 0⟩],
    fun s t => compare s.length t.length⟩

/-- C4 witness: with one unresolvable target among two, the key becomes
Unresolved in the cache and no partial list is stored. -/
theorem c4_witness :
    resolveOutcome c4Env "db.service" = none ∧
    mapGet (generateContext c4Env [("db.service", none)]) "db.service" = none :=
  ⟨(c4_address_failure_fails_key c4Env "db.service" [⟨"host-a", 80, 0, 0⟩, ⟨"host-b", 81, 0, 0⟩]
      ⟨"host-b", 81, 0, 0⟩ "EAI_AGAIN" (by decide) (by decide) (by decide)).2.1,
    (c4_address_failure_fails_key c4Env "db.service" [⟨"host-a", 80, 0, 0⟩, ⟨"host-b", 81, 0, 0⟩]
      ⟨"host-b", 81, 0, 0⟩ "EAI_AGAIN" (by decide) (by decide) (by decide)).2.2
      [("db.service", none)] (by decide)⟩

/-- C5: a resolution target whose name the address-literal test accepts is
never passed to the address-lookup collaborator: the result is fixed to an
endpoint whose ip equals the literal name, and it is the same under every
environment that also classifies the name as a literal, whatever its
resolveAddress does. -/
theorem c5_literal_no_lookup (env : DnsEnv) (entry : SrvTarget)
    (h : env.isIPLiteral entry.name = true) :
    resolveIP env entry
      = Except.ok ⟨entry.name, some entry.name, entry.port, entry.priority, entry.weight⟩ ∧
    ∀ env2 : DnsEnv, env2.isIPLiteral entry.name = true →
      resolveIP env2 entry = resolveIP env entry := by
  constructor
  · simp [resolveIP, h]
  · intro env2 h2
    simp [resolveIP, h, h2]

/-- A collaborator environment for the C5 witness: the literal test accepts
exactly the dotted-quad name used, and any address lookup would fail. -/
def c5Env : DnsEnv :=
  ⟨fun s => s == "192.168.0.7",
    fun _ => Except.error "must not be consulted",
    fun _ => Except.ok [],
    fun s t => compare s.length t.length⟩

/-- C5 witness: a literal IPv4 target resolves to itself without any lookup. -/
theorem c5_witness :
    resolveIP c5Env ⟨"192.168.0.7", 443, 1, 2⟩
      = Except.ok ⟨"192.168.0.7", some "192.168.0.7", 443, 1, 2⟩ :=
  (c5_literal_no_lookup c5Env ⟨"192.168.0.7", 443, 1, 2⟩ (by decide)).1

/-- C7: a reconciliation cycle neither adds nor removes cache keys, and every
key's value is replaced by that key's fresh settled outcome (a resolved list
or Unresolved); no stale data survives the cycle. -/
theorem c7_key_set_invariant (env : DnsEnv) (cache : Cache) :
    mapKeys (generateContext env cache) = mapKeys cache ∧
    ∀ k, k ∈ mapKeys cache → mapGet (generateContext env cache) k = resolveOutcome env k :=
  ⟨generateContext_keys env cache, fun k hk => generateContext_get env cache k hk⟩

/-- A collaborator environment for the C7 witness: every service lookup
fails. -/
def c7Env : DnsEnv :=
  ⟨fun _ => false,
    fun _ => Except.error "ENOTFOUND",
    fun _ => Except.error "ENOTFOUND",
    fun s t => compare s.length t.length⟩

/-- The cache for the C7 witness, with one previously resolved key. -/
def c7Cache : Cache := [("a.svc", some [⟨"old", some "10.9.9.9", 1, 0, 0⟩]), ("b.svc", none)]

/-- C7 witness: on a concrete cache the key set survives the cycle and the
previously resolved key is reset to its fresh (failed) outcome. -/
theorem c7_witness :
    mapKeys (generateContext c7Env c7Cache) = mapKeys c7Cache ∧
    mapGet (generateContext c7Env c7Cache) "a.svc" = resolveOutcome c7Env "a.svc" :=
  ⟨(c7_key_set_invariant c7Env c7Cache).1,
    (c7_key_set_invariant c7Env c7Cache).2 "a.svc" (by decide)⟩

/-- A collaborator environment for the C6 counterexample. The two targets
share the literal name 10.0.0.1, which the address-literal test accepts (as
ip.isV4Format does), and every comparator returns zero on two identical
strings, which the length comparator used here also does. -/
def c6Env : DnsEnv :=
  ⟨fun s => s == "10.0.0.1",
    fun _ => Except.error "unused",
    fun _ => Except.ok [],
    fun s t => compare s.length t.length⟩

/-- A service answer with two targets of equal name and different ports. -/
def c6TargetsA : List SrvTarget := [⟨"10.0.0.1", 8080, 0, 0⟩, ⟨"10.0.0.1", 9090, 0, 0⟩]

/-- The same target set enumerated in the opposite order. -/
def c6TargetsB : List SrvTarget := [⟨"10.0.0.1", 9090, 0, 0⟩, ⟨"10.0.0.1", 8080, 0, 0⟩]

/-- C6 counterexample: the two answers are permutations of the same target
set, yet the resolved endpoint lists differ (the sort is stable and compares
only names, so two targets with the same name keep their enumeration order)
and the rendered configurations differ as well. -/
theorem c6_counterexample :
    c6TargetsA.Perm c6TargetsB ∧
    srvSuccess c6Env c6TargetsA ≠ srvSuccess c6Env c6TargetsB ∧
    render [TemplateItem.dnsSrvBlock "cache.svc"
        (fun eps => String.join (eps.map (fun ep => if ep.port = 8080 then "A" else "B")))]
        (mapSet [("cache.svc", none)] "cache.svc" (settledValue (srvSuccess c6Env c6TargetsA)))
      ≠
      render [TemplateItem.dnsSrvBlock "cache.svc"
        (fun eps => String.join (eps.map (fun ep => if ep.port = 8080 then "A" else "B")))]
        (mapSet [("cache.svc", none)] "cache.svc" (settledValue (srvSuccess c6Env c6TargetsB))) := by
  refine ⟨by decide, by decide, by decide⟩

/-- C6 (amended): for two service answers that are permutations of the same
target set, the resolved endpoint lists and the rendered configurations are
identical, provided the comparator is consistent (swap-compatible and
transitive) and no two distinct targets of the answer carry
comparator-equivalent names. Without the last proviso the property fails, as
c6_counterexample shows. -/
theorem c6_permutation_invariant (env : DnsEnv) (l1 l2 : List SrvTarget)
    (hswap : ∀ s t, (env.localeCmp s t).swap = env.localeCmp t s)
    (htrans : ∀ s t u, env.localeCmp s t ≠ Ordering.gt → env.localeCmp t u ≠ Ordering.gt →
      env.localeCmp s u ≠ Ordering.gt)
    (hperm : l1.Perm l2)
    (hdist : ∀ a, a ∈ l1 → ∀ b, b ∈ l1 → env.localeCmp a.name b.name = Ordering.eq → a = b) :
    srvSuccess env l1 = srvSuccess env l2 ∧
    ∀ (tmpl : List TemplateItem) (cache : Cache) (k : String),
      render tmpl (mapSet cache k (settledValue (srvSuccess env l1))) =
        render tmpl (mapSet cache k (settledValue (srvSuccess env l2))) := by
  haveI instT : IsTrans SrvTarget (targetLE env.localeCmp) :=
    ⟨fun a b c hab hbc => htrans a.name b.name c.name hab hbc⟩
  haveI instTot : IsTotal SrvTarget (targetLE env.localeCmp) := by
    constructor
    intro a b
    by_cases h : env.localeCmp a.name b.name = Ordering.gt
    · right
      have hlt : env.localeCmp b.name a.name = Ordering.lt := by
        rw [← hswap a.name b.name, h]
        rfl
      simp [targetLE, hlt]
    · left
      exact h
  have hp : (sortTargets env.localeCmp l1).Perm (sortTargets env.localeCmp l2) :=
    ((List.perm_insertionSort (targetLE env.localeCmp) l1).trans hperm).trans
      (List.perm_insertionSort (targetLE env.localeCmp) l2).symm
  have s1 : (sortTargets env.localeCmp l1).Pairwise (targetLE env.localeCmp) :=
    List.sorted_insertionSort (targetLE env.localeCmp) l1
  have s2 : (sortTargets env.localeCmp l2).Pairwise (targetLE env.localeCmp) :=
    List.sorted_insertionSort (targetLE env.localeCmp) l2
  have hanti : ∀ a, a ∈ sortTargets env.localeCmp l1 → ∀ b, b ∈ sortTargets env.localeCmp l1 →
      targetLE env.localeCmp a b → targetLE env.localeCmp b a → a = b := by
    intro a ha b hb hab hba
    have ha1 : a ∈ l1 := (List.perm_insertionSort (targetLE env.localeCmp) l1).mem_iff.mp ha
    have hb1 : b ∈ l1 := (List.perm_insertionSort (targetLE env.localeCmp) l1).mem_iff.mp hb
    cases hord : env.localeCmp a.name b.name with
    | lt => exact absurd (by rw [← hswap a.name b.name, hord]; rfl) hba
    | eq => exact hdist a ha1 b hb1 hord
    | gt => exact absurd hord hab
  have hsort : sortTargets env.localeCmp l1 = sortTargets env.localeCmp l2 :=
    sorted_perm_eq (targetLE env.localeCmp) _ _ hp s1 s2 hanti
  have hmain : srvSuccess env l1 = srvSuccess env l2 := by
    simp only [srvSuccess, hsort, hperm.length_eq]
  exact ⟨hmain, fun tmpl cache k => by rw [hmain]⟩

/-- A collaborator environment for the C6 witness: every target name is
treated as a literal and names of different lengths compare differently. -/
def c6WitnessEnv : DnsEnv :=
  ⟨fun _ => true,
    fun _ => Except.error "unused",
    fun _ => Except.ok [],
    fun s t => compare s.length t.length⟩

/-- C6 witness: two permuted answers with comparator-distinct names produce
the same endpoint list and render identically. -/
theorem c6_witness :
    srvSuccess c6WitnessEnv [⟨"a", 1, 0, 0⟩, ⟨"bb", 2, 0, 0⟩]
      = srvSuccess c6WitnessEnv [⟨"bb", 2, 0, 0⟩, ⟨"a", 1, 0, 0⟩] ∧
    render [TemplateItem.text "x"]
        (mapSet [] "k" (settledValue (srvSuccess c6WitnessEnv [⟨"a", 1, 0, 0⟩, ⟨"bb", 2, 0, 0⟩])))
      = render [TemplateItem.text "x"]
        (mapSet [] "k" (settledValue (srvSuccess c6WitnessEnv [⟨"bb", 2, 0, 0⟩, ⟨"a", 1, 0, 0⟩]))) :=
  ⟨(c6_permutation_invariant c6WitnessEnv [⟨"a", 1, 0, 0⟩, ⟨"bb", 2, 0, 0⟩]
      [⟨"bb", 2, 0, 0⟩, ⟨"a", 1, 0, 0⟩]
      (fun s t => Nat.compare_swap s.length t.length)
      (fun s t u h1 h2 => Nat.compare_ne_gt.mpr
        (Nat.le_trans (Nat.compare_ne_gt.mp h1) (Nat.compare_ne_gt.mp h2)))
      (by decide) (by decide)).1,
    (c6_permutation_invariant c6WitnessEnv [⟨"a", 1, 0, 0⟩, ⟨"bb", 2, 0, 0⟩]
      [⟨"bb", 2, 0, 0⟩, ⟨"a", 1, 0, 0⟩]
      (fun s t => Nat.compare_swap s.length t.length)
      (fun s t u h1 h2 => Nat.compare_ne_gt.mpr
        (Nat.le_trans (Nat.compare_ne_gt.mp h1) (Nat.compare_ne_gt.mp h2)))
      (by decide) (by decide)).2 [TemplateItem.text "x"] [] "k"⟩

/-- C2: when the rendered configuration equals the persisted one under the
whitespace-normalising trimmed-line comparison, the cycle writes nothing and
never calls reload, whatever the haproxy state and whatever reload would
report. -/
theorem c2_unchanged_suppresses_write_and_reload (tmpl : List TemplateItem) (env : DnsEnv)
    (cache : Cache) (existingFile : Option String) (running : Bool) (reloadErr : Option String)
    (h : configChanged (Option.getD existingFile "") (render tmpl (generateContext env cache))
      = false) :
    (regenerateConfiguration tmpl env cache existingFile running reloadErr).written = none ∧
    (regenerateConfiguration tmpl env cache existingFile running reloadErr).reloadAttempted
      = false := by
  simp [regenerateConfiguration, h]

/-- A collaborator environment whose lookups all fail, used by the cycle
witnesses. -/
def cycleEnv : DnsEnv :=
  ⟨fun _ => false,
    fun _ => Except.error "ENOTFOUND",
    fun _ => Except.error "ENOTFOUND",
    fun s t => compare s.length t.length⟩

/-- C2 witness: a concrete cycle whose rendered text matches the persisted
file (up to line trimming) neither writes nor reloads. -/
theorem c2_witness :
    (regenerateConfiguration [TemplateItem.text "global daemon"] cycleEnv [("k", none)]
        (some "  global daemon  ") true (some "boom")).written = none ∧
    (regenerateConfiguration [TemplateItem.text "global daemon"] cycleEnv [("k", none)]
        (some "  global daemon  ") true (some "boom")).reloadAttempted = false :=
  c2_unchanged_suppresses_write_and_reload [TemplateItem.text "global daemon"] cycleEnv
    [("k", none)] (some "  global daemon  ") true (some "boom") (by decide)

/-- C8: when a material change is detected and haproxy is not running, the
cycle writes the new configuration, resolves successfully, and never calls
reload. -/
theorem c8_changed_not_running (tmpl : List TemplateItem) (env : DnsEnv) (cache : Cache)
    (existingFile : Option String) (reloadErr : Option String)
    (h : configChanged (Option.getD existingFile "") (render tmpl (generateContext env cache))
      = true) :
    (regenerateConfiguration tmpl env cache existingFile false reloadErr).written
      = some (render tmpl (generateContext env cache)) ∧
    (regenerateConfiguration tmpl env cache existingFile false reloadErr).reloadAttempted
      = false ∧
    (regenerateConfiguration tmpl env cache existingFile false reloadErr).outcome
      = PromiseOutcome.resolved () := by
  simp [regenerateConfiguration, h]

/-- C8 witness: the first boot writes the fresh configuration and completes
without a reload. -/
theorem c8_witness :
    (regenerateConfiguration [TemplateItem.text "global daemon"] cycleEnv [("k", none)]
        none false (some "boom")).written
      = some (render [TemplateItem.text "global daemon"] (generateContext cycleEnv [("k", none)])) ∧
    (regenerateConfiguration [TemplateItem.text "global daemon"] cycleEnv [("k", none)]
        none false (some "boom")).reloadAttempted = false ∧
    (regenerateConfiguration [TemplateItem.text "global daemon"] cycleEnv [("k", none)]
        none false (some "boom")).outcome = PromiseOutcome.resolved () :=
  c8_changed_not_running [TemplateItem.text "global daemon"] cycleEnv [("k", none)] none
    (some "boom") (by decide)

/-- C9: when a material change is detected, haproxy is running and the reload
reports an error, the cycle's promise rejects with that error, the scheduler's
failure handler terminates the process, and the exit status is non-zero. -/
theorem c9_reload_failure_fatal (tmpl : List TemplateItem) (env : DnsEnv) (cache : Cache)
    (existingFile : Option String) (e : String)
    (h : configChanged (Option.getD existingFile "") (render tmpl (generateContext env cache))
      = true) :
    (regenerateConfiguration tmpl env cache existingFile true (some e)).outcome
      = PromiseOutcome.rejected e ∧
    schedulerReaction (regenerateConfiguration tmpl env cache existingFile true (some e)).outcome
      = SchedulerAction.exitProcess onFailureExitCode ∧
    onFailureExitCode ≠ 0 := by
  have h1 : (regenerateConfiguration tmpl env cache existingFile true (some e)).outcome
      = PromiseOutcome.rejected e := by
    simp [regenerateConfiguration, h]
  refine ⟨h1, ?_, by decide⟩
  rw [h1]
  rfl

/-- C9 witness: a concrete failing reload rejects the cycle and exits the
process with a non-zero status. -/
theorem c9_witness :
    (regenerateConfiguration [TemplateItem.text "global daemon"] cycleEnv [("k", none)]
        none true (some "reload failed")).outcome = PromiseOutcome.rejected "reload failed" ∧
    schedulerReaction (regenerateConfiguration [TemplateItem.text "global daemon"] cycleEnv
        [("k", none)] none true (some "reload failed")).outcome
      = SchedulerAction.exitProcess onFailureExitCode ∧
    onFailureExitCode ≠ 0 :=
  c9_reload_failure_fatal [TemplateItem.text "global daemon"] cycleEnv [("k", none)] none
    "reload failed" (by decide)

/-- C10: when no material change is detected the promise built by
regenerateConfiguration never settles, and if this happens on the startup
regeneration, none of the chained startup steps (verifyConfiguration,
startHAProxy, scheduleRefresh) ever runs, whatever those steps would have
done. -/
theorem c10_no_change_never_settles (tmpl : List TemplateItem) (env : DnsEnv) (cache : Cache)
    (existingFile : Option String) (running : Bool) (reloadErr : Option String)
    (h : configChanged (Option.getD existingFile "") (render tmpl (generateContext env cache))
      = false) :
    (regenerateConfiguration tmpl env cache existingFile running reloadErr).outcome
      = PromiseOutcome.pending ∧
    ∀ verifyOutcome startOutcome,
      mainSequenceSteps
          (regenerateConfiguration tmpl env cache existingFile running reloadErr).outcome
          verifyOutcome startOutcome
        = ⟨false, false, false⟩ := by
  have h1 : (regenerateConfiguration tmpl env cache existingFile running reloadErr).outcome
      = PromiseOutcome.pending := by
    simp [regenerateConfiguration, h]
  refine ⟨h1, fun verifyOutcome startOutcome => ?_⟩
  rw [h1]
  rfl

/-- C10 witness: a concrete unchanged startup regeneration stays pending and
no later startup step runs, even though verify and start would succeed. -/
theorem c10_witness :
    (regenerateConfiguration [TemplateItem.text "global daemon"] cycleEnv [("k", none)]
        (some "global daemon") false none).outcome = PromiseOutcome.pending ∧
    mainSequenceSteps
        (regenerateConfiguration [TemplateItem.text "global daemon"] cycleEnv [("k", none)]
          (some "global daemon") false none).outcome
        (PromiseOutcome.resolved ()) (PromiseOutcome.resolved ())
      = ⟨false, false, false⟩ :=
  ⟨(c10_no_change_never_settles [TemplateItem.text "global daemon"] cycleEnv [("k", none)]
      (some "global daemon") false none (by decide)).1,
    (c10_no_change_never_settles [TemplateItem.text "global daemon"] cycleEnv [("k", none)]
      (some "global daemon") false none (by decide)).2
      (PromiseOutcome.resolved ()) (PromiseOutcome.resolved ())⟩
